import Mathlib

/-!
Verification development for the MatFW_001 RF impedance-matching controller
firmware (files `MatchingAlgorithm.hpp`, `MotionBoard.hpp`, `RFSensor.hpp`,
`DebugMode.hpp`).

Embedding conventions:
* C++ `double`/`float` arithmetic is embedded over `ℝ` (for the matching
  algorithm and the sensor pipeline) or over `ℚ` (for the motor controller's
  capacitance⇄position map, which only ever feeds integer registers), with
  rounding ignored; every numeric literal in the source (including the
  literal `PI = 3.14159265358979323846`) is kept as the exact rational it
  denotes in the source text.
* `int32_t` / `int` values are embedded as `ℤ`; C integer division and the
  C cast `(int32_t)x` (truncation toward zero) are embedded as `Int.tdiv`
  and as explicit truncation functions `truncQ` / `truncR`.
* Divisions that the source leaves unguarded and that can actually divide
  by zero are embedded as `Option`-returning code (`none` models the
  non-finite result the C program would produce).
* Memory-mapped reads (motor position registers, FFT BRAM contents, hold
  indices) are passed in as explicit parameters.
-/

/-- Truncation toward zero of a rational, the semantics of the C cast
`(int32_t)` applied to a non-integral value. -/
def truncQ (q : ℚ) : ℤ :=
  if 0 ≤ q then ⌊q⌋ else ⌈q⌉

/-- Truncation toward zero of a real, the semantics of the C cast
`(int32_t)` applied to a `double`. -/
noncomputable def truncR (x : ℝ) : ℤ :=
  if 0 ≤ x then ⌊x⌋ else ⌈x⌉

/-! ## Motor controller (`MotionBoard.hpp`, class `MotorController`)

The fields below are the data members of `MotorController` that the
capacitance⇄position map, the soft-limit clamp and the percentage readout
use.  `fitCoeffs` is the array `float fitCoeffs[4] = [a0, a1, a2, a3]` of
normalised-cubic coefficients. -/

/-- The `float fitCoeffs[4]` array: `c0 = a0, c1 = a1, c2 = a2, c3 = a3`. -/
structure FitCoeffs where
  c0 : ℚ
  c1 : ℚ
  c2 : ℚ
  c3 : ℚ
deriving DecidableEq

/-- The data members of `MotorController` used by the embedded operations. -/
structure MotorController where
  gpioInitialized : Bool
  minValue : ℤ
  maxValue : ℤ
  lowerLimit : ℤ
  upperLimit : ℤ
  minCap : ℤ
  maxCap : ℤ
  fitCoeffs : FitCoeffs
deriving DecidableEq

namespace MotorController

/-- `MotorController::isFittingCalibrated`: the fit is calibrated when the
four coefficients are not all zero. -/
def isFittingCalibrated (m : MotorController) : Bool :=
  decide (m.fitCoeffs.c0 ≠ 0 ∨ m.fitCoeffs.c1 ≠ 0 ∨
          m.fitCoeffs.c2 ≠ 0 ∨ m.fitCoeffs.c3 ≠ 0)

/-- `MotorController::getCapacitanceAt(pos)`: capacitance in pF × 100 at a
step position, via the normalised cubic when calibrated, else linear
interpolation between `(minValue, minCap)` and `(maxValue, maxCap)`.

The source computes in `float`; this embedding computes the same
expressions in exact rationals.  The two coincide exactly on inputs
whose intermediate values are all dyadic rationals representable in
float32 (every IEEE rounding is then the identity); theorems below that
depend on exact output values are stated on such inputs, and
counterexample inputs are chosen so their conclusions are robust to
float32 rounding. -/
def getCapacitanceAt (m : MotorController) (pos : ℤ) : ℤ :=
  let xRange : ℚ := (m.maxValue : ℚ) - (m.minValue : ℚ)
  if m.isFittingCalibrated = true ∧ 0 < xRange then
    let xNorm : ℚ := ((pos : ℚ) - (m.minValue : ℚ)) / xRange
    let cap : ℚ := m.fitCoeffs.c3 * xNorm * xNorm * xNorm +
                   m.fitCoeffs.c2 * xNorm * xNorm +
                   m.fitCoeffs.c1 * xNorm +
                   m.fitCoeffs.c0
    truncQ (cap * 100)
  else if m.maxValue ≤ m.minValue then m.minCap
  else
    let range := m.maxCap - m.minCap
    let posRange := m.maxValue - m.minValue
    let posOffset0 := pos - m.minValue
    let posOffset1 := if posOffset0 < 0 then 0 else posOffset0
    let posOffset2 := if posRange < posOffset1 then posRange else posOffset1
    m.minCap + Int.tdiv (range * posOffset2) posRange

/-- The Newton–Raphson loop of `MotorController::getPositionFromCap`,
with explicit fuel (the source's `maxIterations = 20`).  `t` is the target
capacitance in pF, `lo`/`hi` the normalised window bounds.  The source's
float tolerances `0.1f` and `1e-10f` are embedded as the exact rationals
`1/10` and `1/10^10`; the break comparisons agree with float32 whenever
the residual is not within rounding distance of the tolerance, which
holds at every input the theorems below evaluate. -/
def newtonIter (fc : FitCoeffs) (t lo hi : ℚ) : ℕ → ℚ → ℚ
  | 0, x => x
  | Nat.succ n, x =>
    let fx := fc.c3 * (x * x * x) + fc.c2 * (x * x) + fc.c1 * x + fc.c0 - t
    if |fx| < 1 / 10 then x
    else
      let fpx := 3 * fc.c3 * (x * x) + 2 * fc.c2 * x + fc.c1
      if |fpx| < 1 / 10 ^ 10 then x
      else
        let x1 := x - fx / fpx
        let x2 := if x1 < lo then lo else if hi < x1 then hi else x1
        newtonIter fc t lo hi n x2

/-- `MotorController::getPositionFromCap(targetCap)`: inverse of the
capacitance map.  Newton–Raphson on the normalised cubic when calibrated,
else linear interpolation.  `targetCap` is in pF × 100.  As with
`getCapacitanceAt`, the source's float32 arithmetic is embedded as exact
rationals; exact-value theorems below are confined to inputs whose whole
float32 trace is dyadic-exact. -/
def getPositionFromCap (m : MotorController) (targetCap : ℤ) : ℤ :=
  let targetCapPf : ℚ := (targetCap : ℚ) / 100
  let xRange : ℚ := (m.maxValue : ℚ) - (m.minValue : ℚ)
  if m.isFittingCalibrated = true ∧ 0 < xRange then
    let xNormLower : ℚ := ((m.lowerLimit : ℚ) - (m.minValue : ℚ)) / xRange
    let xNormUpper : ℚ := ((m.upperLimit : ℚ) - (m.minValue : ℚ)) / xRange
    let xNorm := newtonIter m.fitCoeffs targetCapPf xNormLower xNormUpper 20
                   ((xNormLower + xNormUpper) / 2)
    truncQ (xNorm * xRange + (m.minValue : ℚ) + 1 / 2)
  else if m.maxCap ≤ m.minCap then m.minValue
  else
    let posRange := m.maxValue - m.minValue
    let capRange := m.maxCap - m.minCap
    let capOffset0 := targetCap - m.minCap
    let capOffset1 := if capOffset0 < 0 then 0 else capOffset0
    let capOffset2 := if capRange < capOffset1 then capRange else capOffset1
    m.minValue + Int.tdiv (posRange * capOffset2) capRange

/-- `MotorController::getPositionPercent`: position as a percentage of the
travel range, clamped to `[0, 100]`; `pos` is the value of `readPos()`.
`Int.tdiv` is C's truncating division. -/
def getPositionPercent (m : MotorController) (pos : ℤ) : ℤ :=
  if m.maxValue ≤ m.minValue then 0
  else
    let percent := Int.tdiv ((pos - m.minValue) * 100) (m.maxValue - m.minValue)
    if percent < 0 then 0 else if 100 < percent then 100 else percent

/-- Result of `MotorController::RunMotor`: the status code, the value
written to the target-position register (none when GPIO is uninitialised
and nothing is written), and whether the clamp message was logged. -/
structure RunMotorResult where
  ok : Bool
  written : Option ℤ
  clampLogged : Bool
deriving DecidableEq

/-- `MotorController::RunMotor(targetPosition)`: clamp the target to
`[lowerLimit, upperLimit]`, log if clamped, write the clamped value to the
`TAR_POS` register (the register holds the 32-bit pattern
`(u32)clampedPosition`; the write is recorded here as the signed value,
the cast being a bijection on 32-bit patterns). -/
def RunMotor (m : MotorController) (targetPosition : ℤ) : RunMotorResult :=
  if m.gpioInitialized = false then ⟨false, none, false⟩
  else if targetPosition < m.lowerLimit then ⟨true, some m.lowerLimit, true⟩
  else if m.upperLimit < targetPosition then ⟨true, some m.upperLimit, true⟩
  else ⟨true, some targetPosition, false⟩

end MotorController

/-! ## Persistence loads (`MotionBoard.hpp`) -/

/-- `MotionBoard::loadVswrSettings`: the FRAM read result is `none` on a
failed read, `some (s0, s1, s2)` on success (start, stop, restart).  Each
field is validated against its own range; out-of-range fields fall back to
the defaults `1.04 / 1.02 / 1.04`. -/
def loadVswrSettings (read : Option (ℚ × ℚ × ℚ)) : ℚ × ℚ × ℚ :=
  match read with
  | none => (1.04, 1.02, 1.04)
  | some (s0, s1, s2) =>
    ( if 1 ≤ s0 ∧ s0 ≤ 10 then s0 else 1.04,
      if 1 ≤ s1 ∧ s1 ≤ 5 then s1 else 1.02,
      if 1 ≤ s2 ∧ s2 ≤ 10 then s2 else 1.04 )

/-- `MotionBoard::loadAmsSettings`: the FRAM read result is `none` on a
failed read, `some (s0, s1, s2)` on success (interval, timeout,
logInterval).  NOTE: the guard of the timeout field reads `settings[0] >= 0`
in the source (not `settings[1] >= 0`); the embedding reproduces that
faithfully. -/
def loadAmsSettings (read : Option (ℤ × ℤ × ℤ)) : ℤ × ℤ × ℤ :=
  match read with
  | none => (10, 0, 10)
  | some (s0, s1, s2) =>
    ( if 1 ≤ s0 ∧ s0 ≤ 1000 then s0 else 10,
      if 0 ≤ s0 ∧ s1 ≤ 60000 then s1 else 0,
      if 1 ≤ s2 ∧ s2 ≤ 1000 then s2 else 10 )

/-! ## RF sensor (`RFSensor.hpp`) -/

/-- `struct AveragedImpedanceResults` (field order as in the source). -/
structure AveragedImpedanceResults where
  voltageMagnitude : ℝ
  currentMagnitude : ℝ
  impedanceMagnitude : ℝ
  impedancePhaseDeg : ℝ
  resistanceR : ℝ
  reactanceX : ℝ

/-- `struct SensorCalibration`. -/
structure SensorCalibration where
  voltageGain : ℝ
  currentGain : ℝ
  phaseDiffRad : ℝ

/-- C's `atan2(y, x)`: the argument of the complex number `x + y·i`,
in `(-π, π]`, with `atan2(0, 0) = 0`. -/
noncomputable def atan2R (y x : ℝ) : ℝ :=
  Complex.arg ⟨x, y⟩

/-- The clamp of `calculateAveragedImpedance`'s `avgCount` argument:
`-1` selects the class member `avgCount_`, then values `≤ 0` become `1`
and values `> fftLength` become `fftLength`. -/
def avgCountUsed (fftLength : ℕ) (avgCountMember avgCount : ℤ) : ℕ :=
  let a0 := if avgCount = -1 then avgCountMember else avgCount
  let a1 := if a0 ≤ 0 then 1 else a0
  if (fftLength : ℤ) < a1 then fftLength else a1.toNat

/-- The window sum `sum_imagSq` of `calculateAveragedImpedance`:
`Σ (I_re² + I_im²)` over the `k` BRAM slots ending at the hold index. -/
noncomputable def sumImagSq (fftLength : ℕ) (i_re i_im : ℕ → ℝ)
    (hold_index k : ℕ) : ℝ :=
  let start := (hold_index + fftLength - k) % fftLength
  ∑ j ∈ Finset.range k,
    (i_re ((start + j) % fftLength) * i_re ((start + j) % fftLength) +
     i_im ((start + j) % fftLength) * i_im ((start + j) % fftLength))

/-- `RFSensor::calculateAveragedImpedance(avgCount)`.

Inputs: the four BRAM buffers as functions of the slot index, the hold
outcome (`holdOk = false` models the bounded-poll timeout, which returns
the zero-initialised result), the two hold indices, the class member
`avgCount_` and the argument `avgCount`.

The source divides `(avg_vmagSq·g_v²)` by `(avg_imagSq·g_i²)` with no
guard; a zero divisor (all-zero current window, or `g_i = 0`) produces a
non-finite value in C, embedded here as `none`. -/
noncomputable def calculateAveragedImpedance (fftLength : ℕ)
    (cal : SensorCalibration) (v_re v_im i_re i_im : ℕ → ℝ)
    (holdOk : Bool) (hold_index_v hold_index_i : ℕ)
    (avgCountMember avgCount : ℤ) : Option AveragedImpedanceResults :=
  if holdOk = false then some ⟨0, 0, 0, 0, 0, 0⟩
  else
    let k := avgCountUsed fftLength avgCountMember avgCount
    let start_v := (hold_index_v + fftLength - k) % fftLength
    let start_i := (hold_index_i + fftLength - k) % fftLength
    let sum_vmagSq : ℝ := ∑ j ∈ Finset.range k,
      (v_re ((start_v + j) % fftLength) * v_re ((start_v + j) % fftLength) +
       v_im ((start_v + j) % fftLength) * v_im ((start_v + j) % fftLength))
    let sum_imagSq : ℝ := sumImagSq fftLength i_re i_im hold_index_i k
    let sum_cross_re : ℝ := ∑ j ∈ Finset.range k,
      (v_re ((start_v + j) % fftLength) * i_re ((start_i + j) % fftLength) +
       v_im ((start_v + j) % fftLength) * i_im ((start_i + j) % fftLength))
    let sum_cross_im : ℝ := ∑ j ∈ Finset.range k,
      (v_im ((start_v + j) % fftLength) * i_re ((start_i + j) % fftLength) -
       v_re ((start_v + j) % fftLength) * i_im ((start_i + j) % fftLength))
    let kRadToDeg : ℝ := 180 / 3.14159265358979323846
    let inv_count : ℝ := 1 / (k : ℝ)
    let fftNorm : ℝ := 1 / (fftLength : ℝ)
    let avg_vmagSq := sum_vmagSq * inv_count
    let avg_imagSq := sum_imagSq * inv_count
    let divisor := avg_imagSq * cal.currentGain * cal.currentGain
    if divisor = 0 then none
    else
      let impedance_mag_sq :=
        (avg_vmagSq * cal.voltageGain * cal.voltageGain) / divisor
      let impedanceMagnitude := Real.sqrt impedance_mag_sq
      let avg_cross_re := sum_cross_re * inv_count * cal.voltageGain * cal.currentGain
      let avg_cross_im := sum_cross_im * inv_count * cal.voltageGain * cal.currentGain
      let impedancePhaseDeg :=
        (atan2R avg_cross_im avg_cross_re - cal.phaseDiffRad) * kRadToDeg
      let kDegToRad : ℝ := 3.14159265358979323846 / 180
      let phaseRad := impedancePhaseDeg * kDegToRad
      some
        { voltageMagnitude := Real.sqrt avg_vmagSq * fftNorm * cal.voltageGain
          currentMagnitude := Real.sqrt avg_imagSq * fftNorm * cal.currentGain
          impedanceMagnitude := impedanceMagnitude
          impedancePhaseDeg := impedancePhaseDeg
          resistanceR := impedanceMagnitude * Real.cos phaseRad
          reactanceX := impedanceMagnitude * Real.sin phaseRad }

/-! ## Matching algorithm (`MatchingAlgorithm.hpp`)

The C++ constructor precomputes every circuit-constant expression into the
private data members listed below; the runtime methods read only those
members.  The embedding makes the members a structure and the methods
functions of that structure; `mkMatchingAlgorithm` is the constructor,
evaluated from the `MatchingConst` constants exactly as in the source
(`PI` is the source's rational literal, so every member is a rational
number). -/

namespace MatchingConst

/-- Unit conversions and circuit constants of `namespace MatchingConst`. -/
def nH : ℝ := 1e-9

def pF : ℝ := 1e-12

def uH : ℝ := 1e-6

def FREQ : ℝ := 13.56e6

/-- The source's literal `PI = 3.14159265358979323846` (a rational). -/
def PI : ℝ := 3.14159265358979323846

noncomputable def OMEGA : ℝ := 2 * PI * FREQ

noncomputable def Lp : ℝ := 36.0 * nH

noncomputable def Cp : ℝ := 15.3 * pF

noncomputable def LB0 : ℝ := 157.0 * nH

def RB0 : ℝ := 0.2

noncomputable def CB0 : ℝ := 1.9 * pF

def RC0 : ℝ := 0.2

noncomputable def LC0 : ℝ := 1.03 * uH

noncomputable def CC0 : ℝ := 2.0 * pF

noncomputable def CC1 : ℝ := 1.5 * pF

noncomputable def CD0 : ℝ := 31.0 * pF

def RE0 : ℝ := 0.2

noncomputable def LE0 : ℝ := 15.0 * nH

def Z_TARGET : ℝ := 50.0

end MatchingConst

/-- `calculateVSWR(R, X, Z0)` from `MatchingAlgorithm.hpp`. -/
noncomputable def calculateVSWR (R X : ℝ) (Z0 : ℝ) : ℝ :=
  let denom := (R + Z0) * (R + Z0) + X * X
  let numer := (R - Z0) * (R - Z0) + X * X
  if denom < 1e-12 then 999.0
  else
    let gamma := Real.sqrt (numer / denom)
    if 1.0 ≤ gamma then 999.0
    else (1.0 + gamma) / (1.0 - gamma)

/-- `struct ImpedancePoints`. -/
structure ImpedancePoints where
  RA : ℝ
  XA : ℝ
  RB : ℝ
  XB : ℝ
  RC : ℝ
  XC : ℝ
  RD : ℝ
  XD : ℝ
  RE : ℝ
  XE : ℝ
  Rp : ℝ
  Xp : ℝ

/-- `struct ZCFromOutput`. -/
structure ZCFromOutput where
  RC : ℝ
  XC : ℝ

/-- `struct MatchingGoals`. -/
structure MatchingGoals where
  VVC0Goal0 : ℝ
  VVC1Goal0 : ℝ
  step0Goal0 : ℤ
  step1Goal0 : ℤ
  valid0 : Bool
  VVC0Goal1 : ℝ
  VVC1Goal1 : ℝ
  step0Goal1 : ℤ
  step1Goal1 : ℤ
  valid1 : Bool
  RAGoal : ℝ
  XAGoal : ℝ
  XBGoal0 : ℝ
  XBGoal1 : ℝ
  XDGoal0 : ℝ
  XDGoal1 : ℝ
  RC_calculated : ℝ
  XC_calculated : ℝ
  XD_calculated : ℝ

/-- The private data members of `class MatchingAlgorithm`, all assigned
once by the constructor. -/
structure MatchingAlgorithm where
  w_ : ℝ
  w2_ : ℝ
  w3_ : ℝ
  w4_ : ℝ
  w5_ : ℝ
  w6_ : ℝ
  denom_A_const_ : ℝ
  denom_A_Rm2_ : ℝ
  denom_A_Xm_ : ℝ
  denom_A_Xm2_ : ℝ
  XA_const_ : ℝ
  XA_Rm2_ : ℝ
  XA_Xm_ : ℝ
  XA_Xm2_ : ℝ
  denomB_const_ : ℝ
  RB_const_ : ℝ
  XB_numer_const_ : ℝ
  XB_numer_VVC0_ : ℝ
  XB_denom_factor_ : ℝ
  E_CD0_ : ℝ
  E_CD02_ : ℝ
  E_2CD0_ : ℝ
  E_CD0_w_ : ℝ
  E_2CD0_w_ : ℝ
  E_CD02_w_ : ℝ
  E_2CD02_w_ : ℝ
  E_CD02_w2_ : ℝ
  RE0_ : ℝ
  LE0_w_ : ℝ
  D_const_ : ℝ
  D_RC2_ : ℝ
  D_RC_ : ℝ
  D_XC_ : ℝ
  D_XC2_ : ℝ
  RD_const_ : ℝ
  RD_RC_ : ℝ
  XD_const_ : ℝ
  XD_RC2_ : ℝ
  XD_RC_ : ℝ
  XD_XC_ : ℝ
  XD_XC2_ : ℝ
  RAGoal_ : ℝ
  XAGoal_ : ℝ
  RAGoal2_ : ℝ
  XAGoal2_ : ℝ
  RB2_ : ℝ
  disc_const_ : ℝ
  disc_RC_coef_ : ℝ
  disc_RC2_coef_ : ℝ

namespace MatchingAlgorithm

/-- `MatchingAlgorithm::MatchingAlgorithm()`: the constructor's
precomputation, transcribed expression by expression. -/
noncomputable def mk' : MatchingAlgorithm :=
  let w_ := MatchingConst.OMEGA
  let w2_ := w_ * w_
  let w3_ := w2_ * w_
  let w4_ := w2_ * w2_
  let w5_ := w4_ * w_
  let w6_ := w3_ * w3_
  let Lp := MatchingConst.Lp
  let Cp := MatchingConst.Cp
  let Lp2 := Lp * Lp
  let Cp2 := Cp * Cp
  let CpLpW2 := Cp * Lp * w2_
  let Cp2W2 := Cp2 * w2_
  let Cp2Lp2W4 := Cp2 * Lp2 * w4_
  let LB0 := MatchingConst.LB0
  let RB0 := MatchingConst.RB0
  let CB0 := MatchingConst.CB0
  let LB02 := LB0 * LB0
  let CB02 := CB0 * CB0
  let RB02 := RB0 * RB0
  let CB0LB0W2 := CB0 * LB0 * w2_
  let CB02W2_RB02_LB02W2 := CB02 * w2_ * (RB02 + LB02 * w2_)
  let denomB_const_ := 1.0 - 2.0 * CB0LB0W2 + CB02W2_RB02_LB02W2
  let RB_const_ := RB0 / denomB_const_
  let RC0 := MatchingConst.RC0
  let LC0 := MatchingConst.LC0
  let CC0 := MatchingConst.CC0
  let CC1 := MatchingConst.CC1
  let CD0 := MatchingConst.CD0
  let RE0 := MatchingConst.RE0
  let LE0 := MatchingConst.LE0
  let LC02 := LC0 * LC0
  let CC02 := CC0 * CC0
  let CC12 := CC1 * CC1
  let RC02 := RC0 * RC0
  let Z_TARGET := MatchingConst.Z_TARGET
  let Z2 := Z_TARGET * Z_TARGET
  let denomGoal := 1.0 + Z2 * Cp2 * w2_ - 2.0 * Cp * Lp * w2_ + Cp2 * Lp2 * w4_
  let RAGoal_ := Z_TARGET / denomGoal
  let XAGoal_ := w_ * (Z2 * Cp - Lp + Cp * Lp2 * w2_) / denomGoal
  let RAGoal2_ := RAGoal_ * RAGoal_
  let XAGoal2_ := XAGoal_ * XAGoal_
  let RB2_ := RB_const_ * RB_const_
  let RAGoal3 := RAGoal_ * RAGoal2_
  { w_ := w_
    w2_ := w2_
    w3_ := w3_
    w4_ := w4_
    w5_ := w5_
    w6_ := w6_
    denom_A_const_ := 1.0 - 2.0 * CpLpW2 + Cp2Lp2W4
    denom_A_Rm2_ := Cp2W2
    denom_A_Xm_ := 2.0 * Cp * w_ - 2.0 * Cp2 * Lp * w3_
    denom_A_Xm2_ := Cp2W2
    XA_const_ := -Lp * w_ + Cp * Lp2 * w3_
    XA_Rm2_ := Cp * w_
    XA_Xm_ := 1.0 - 2.0 * Cp * Lp * w2_
    XA_Xm2_ := Cp * w_
    denomB_const_ := denomB_const_
    RB_const_ := RB_const_
    XB_numer_const_ := 1.0 + CB02W2_RB02_LB02W2 - 2.0 * CB0 * LB0 * w2_
    XB_numer_VVC0_ := -LB0 * w2_ + CB0 * RB02 * w2_ + CB0 * LB02 * w4_
    XB_denom_factor_ := w_ * denomB_const_
    E_CD0_ := CD0
    E_CD02_ := CD0 * CD0
    E_2CD0_ := 2.0 * CD0
    E_CD0_w_ := CD0 * w_
    E_2CD0_w_ := 2.0 * CD0 * w_
    E_CD02_w_ := CD0 * CD0 * w_
    E_2CD02_w_ := 2.0 * (CD0 * CD0) * w_
    E_CD02_w2_ := CD0 * CD0 * w2_
    RE0_ := RE0
    LE0_w_ := LE0 * w_
    D_const_ := 1.0 - 2.0 * CC0 * LC0 * w2_ - 2.0 * CC1 * LC0 * w2_
      + CC02 * RC02 * w2_ + 2.0 * CC0 * CC1 * RC02 * w2_ + CC12 * RC02 * w2_
      + CC02 * LC02 * w4_ + 2.0 * CC0 * CC1 * LC02 * w4_ + CC12 * LC02 * w4_
    D_RC2_ := CC12 * w2_ - 2.0 * CC0 * CC12 * LC0 * w4_ + CC02 * CC12 * RC02 * w4_
      + CC02 * CC12 * LC02 * w6_
    D_RC_ := -2.0 * CC12 * RC0 * w2_
    D_XC_ := 2.0 * CC1 * w_ - 4.0 * CC0 * CC1 * LC0 * w3_ - 2.0 * CC12 * LC0 * w3_
      + 2.0 * CC02 * CC1 * RC02 * w3_ + 2.0 * CC0 * CC12 * RC02 * w3_
      + 2.0 * CC02 * CC1 * LC02 * w5_ + 2.0 * CC0 * CC12 * LC02 * w5_
    D_XC2_ := CC12 * w2_ - 2.0 * CC0 * CC12 * LC0 * w4_
      + CC02 * CC12 * RC02 * w4_ + CC02 * CC12 * LC02 * w6_
    RD_const_ := -RC0
    RD_RC_ := 1.0 - 2.0 * CC0 * LC0 * w2_ + CC02 * RC02 * w2_ + CC02 * LC02 * w4_
    XD_const_ := -LC0 * w_ + CC0 * RC02 * w_ + CC1 * RC02 * w_
      + CC0 * LC02 * w3_ + CC1 * LC02 * w3_
    XD_RC2_ := CC1 * w_ - 2.0 * CC0 * CC1 * LC0 * w3_ + CC02 * CC1 * RC02 * w3_
      + CC02 * CC1 * LC02 * w5_
    XD_RC_ := -2.0 * CC1 * RC0 * w_
    XD_XC_ := 1.0 - 2.0 * CC0 * LC0 * w2_ - 2.0 * CC1 * LC0 * w2_
      + CC02 * RC02 * w2_ + 2.0 * CC0 * CC1 * RC02 * w2_
      + CC02 * LC02 * w4_ + 2.0 * CC0 * CC1 * LC02 * w4_
    XD_XC2_ := CC1 * w_ - 2.0 * CC0 * CC1 * LC0 * w3_
      + CC02 * CC1 * RC02 * w3_ + CC02 * CC1 * LC02 * w5_
    RAGoal_ := RAGoal_
    XAGoal_ := XAGoal_
    RAGoal2_ := RAGoal2_
    XAGoal2_ := XAGoal2_
    RB2_ := RB2_
    disc_const_ := RAGoal3 * RB_const_ - RAGoal2_ * RB2_ + RAGoal_ * RB_const_ * XAGoal2_
    disc_RC_coef_ := RAGoal3 - 3.0 * RAGoal2_ * RB_const_ + 2.0 * RAGoal_ * RB2_
      + RAGoal_ * XAGoal2_ - RB_const_ * XAGoal2_
    disc_RC2_coef_ := -RAGoal2_ + 2.0 * RAGoal_ * RB_const_ - RB2_ }

/-- `MatchingAlgorithm::calculateZA(Rm, Xm)`, returning `(RA, XA)`. -/
noncomputable def calculateZA (a : MatchingAlgorithm) (Rm Xm : ℝ) : ℝ × ℝ :=
  let Rm2 := Rm * Rm
  let Xm2 := Xm * Xm
  let denom := a.denom_A_const_ + a.denom_A_Rm2_ * Rm2
             + a.denom_A_Xm_ * Xm + a.denom_A_Xm2_ * Xm2
  (Rm / denom,
   (a.XA_const_ + a.XA_Rm2_ * Rm2 + a.XA_Xm_ * Xm + a.XA_Xm2_ * Xm2) / denom)

/-- `MatchingAlgorithm::calculateZB(VVC0_pF)`, returning `(RB, XB)`. -/
noncomputable def calculateZB (a : MatchingAlgorithm) (VVC0_pF : ℝ) : ℝ × ℝ :=
  let VVC0 := VVC0_pF * MatchingConst.pF
  let numer := -(a.XB_numer_const_ + a.XB_numer_VVC0_ * VVC0)
  (a.RB_const_, numer / (VVC0 * a.XB_denom_factor_))

/-- `MatchingAlgorithm::calculateZC(RA, XA, RB, XB)`, returning
`(RC, XC)`; a parallel-combination denominator below `1e-12` falls back
to `(RA, XA)`. -/
noncomputable def calculateZC (RA XA RB XB : ℝ) : ℝ × ℝ :=
  let RA2 := RA * RA
  let RB2 := RB * RB
  let XA2 := XA * XA
  let XB2 := XB * XB
  let denom := RA2 - 2.0 * RA * RB + RB2 + XA2 - 2.0 * XA * XB + XB2
  if |denom| < 1e-12 then (RA, XA)
  else
    ((-RA2 * RB + RA * RB2 - RB * XA2 + RA * XB2) / denom,
     (RB2 * XA - RA2 * XB - XA2 * XB + XA * XB2) / denom)

/-- `MatchingAlgorithm::calculateZD(RC, XC)`, returning `(RD, XD)`;
a denominator below `1e-20` in magnitude falls back to `(RC, XC)`. -/
noncomputable def calculateZD (a : MatchingAlgorithm) (RC XC : ℝ) : ℝ × ℝ :=
  let RC2 := RC * RC
  let XC2 := XC * XC
  let denom := a.D_const_ + a.D_RC2_ * RC2 + a.D_RC_ * RC
             + a.D_XC_ * XC + a.D_XC2_ * XC2
  if |denom| < 1e-20 then (RC, XC)
  else
    ((a.RD_const_ + a.RD_RC_ * RC) / denom,
     (a.XD_const_ + a.XD_RC2_ * RC2 + a.XD_RC_ * RC
      + a.XD_XC_ * XC + a.XD_XC2_ * XC2) / denom)

/-- `MatchingAlgorithm::calculateZE(RD, XD, VVC1_pF)`, returning
`(RE, XE)`; a denominator below `1e-30` in magnitude falls back to
`(RD, XD)`. -/
noncomputable def calculateZE (a : MatchingAlgorithm) (RD XD VVC1_pF : ℝ) : ℝ × ℝ :=
  let VVC1 := VVC1_pF * MatchingConst.pF
  let VVC12 := VVC1 * VVC1
  let RD2 := RD * RD
  let XD2 := XD * XD
  let denomE := a.E_CD02_ + a.E_2CD0_ * VVC1 + VVC12
              + a.E_CD02_w2_ * RD2 * VVC12
              + a.E_2CD02_w_ * VVC1 * XD
              + a.E_2CD0_w_ * VVC12 * XD
              + a.E_CD02_w2_ * VVC12 * XD2
  if |denomE| < 1e-30 then (RD, XD)
  else
    let XE_numer := a.E_CD0_ + VVC1
                  + a.E_CD0_w_ * a.w_ * RD2 * VVC12
                  + a.E_2CD0_w_ * VVC1 * XD
                  + VVC12 * a.w_ * XD
                  + a.E_CD0_w_ * a.w_ * VVC12 * XD2
    (RD * VVC12 / denomE, XE_numer / (a.w_ * denomE))

/-- `MatchingAlgorithm::calculateZP(RE, XE)`. -/
noncomputable def calculateZP (a : MatchingAlgorithm) (RE XE : ℝ) : ℝ × ℝ :=
  (RE - a.RE0_, XE - a.LE0_w_)

/-- `MatchingAlgorithm::calculateZCFromOutput(Rpm, Xpm, VVC1_pF)`: walks
the network backwards from the output sensor; each of the three complex
divisions falls back to `(Rpm, Xpm)` when its denominator magnitude² is
below `1e-30`.  The circuit constants used here are the `MatchingConst`
globals, as in the source (`using namespace MatchingConst`). -/
noncomputable def calculateZCFromOutput (a : MatchingAlgorithm)
    (Rpm Xpm VVC1_pF : ℝ) : ZCFromOutput :=
  let VVC1 := VVC1_pF * MatchingConst.pF
  let wLE0 := a.w_ * MatchingConst.LE0
  let ZE_R := Rpm + MatchingConst.RE0
  let ZE_X := Xpm + wLE0
  let XCD0 := -1.0 / (a.w_ * MatchingConst.CD0)
  let num_R := -ZE_X * XCD0
  let num_X := ZE_R * XCD0
  let den_R := ZE_R
  let den_X := ZE_X + XCD0
  let den_mag2 := den_R * den_R + den_X * den_X
  if den_mag2 < 1e-30 then ⟨Rpm, Xpm⟩
  else
    let ZE_CD0_R := (num_R * den_R + num_X * den_X) / den_mag2
    let ZE_CD0_X := (num_X * den_R - num_R * den_X) / den_mag2
    let XVVC1 := -1.0 / (a.w_ * VVC1)
    let ZD_R := ZE_CD0_R
    let ZD_X := ZE_CD0_X + XVVC1
    let XCC1 := -1.0 / (a.w_ * MatchingConst.CC1)
    let num2_R := -ZD_X * XCC1
    let num2_X := ZD_R * XCC1
    let den2_R := ZD_R
    let den2_X := ZD_X + XCC1
    let den2_mag2 := den2_R * den2_R + den2_X * den2_X
    if den2_mag2 < 1e-30 then ⟨Rpm, Xpm⟩
    else
      let ZD_CC1_R := (num2_R * den2_R + num2_X * den2_X) / den2_mag2
      let ZD_CC1_X := (num2_X * den2_R - num2_R * den2_X) / den2_mag2
      let ZLC_R := MatchingConst.RC0
      let ZLC_X := a.w_ * MatchingConst.LC0
      let XCC0 := -1.0 / (a.w_ * MatchingConst.CC0)
      let num3_R := -ZLC_X * XCC0
      let num3_X := ZLC_R * XCC0
      let den3_R := ZLC_R
      let den3_X := ZLC_X + XCC0
      let den3_mag2 := den3_R * den3_R + den3_X * den3_X
      if den3_mag2 < 1e-30 then ⟨Rpm, Xpm⟩
      else
        let ZC0_R := (num3_R * den3_R + num3_X * den3_X) / den3_mag2
        let ZC0_X := (num3_X * den3_R - num3_R * den3_X) / den3_mag2
        ⟨ZD_CC1_R + ZC0_R, ZD_CC1_X + ZC0_X⟩

/-- `MatchingAlgorithm::calculateImpedances(Rm, Xm, VVC0_pF, VVC1_pF)`. -/
noncomputable def calculateImpedances (a : MatchingAlgorithm)
    (Rm Xm VVC0_pF VVC1_pF : ℝ) : ImpedancePoints :=
  let pA := a.calculateZA Rm Xm
  let pB := a.calculateZB VVC0_pF
  let pC := calculateZC pA.1 pA.2 pB.1 pB.2
  let pD := a.calculateZD pC.1 pC.2
  let pE := a.calculateZE pD.1 pD.2 VVC1_pF
  let pP := a.calculateZP pE.1 pE.2
  { RA := pA.1, XA := pA.2, RB := pB.1, XB := pB.2,
    RC := pC.1, XC := pC.2, RD := pD.1, XD := pD.2,
    RE := pE.1, XE := pE.2, Rp := pP.1, Xp := pP.2 }

/-- `MatchingAlgorithm::calculateMatchingGoals(Rm, Xm, VVC0_pF, VVC1_pF,
m0, m1, Rpm, Xpm, useOutputForRC)`.

`g0` models the default-initialised local `MatchingGoals goals;`: a plain
C++ struct whose members hold indeterminate values until assigned, so any
member the function returns without assigning keeps its `g0` value.
The motor pointers are `Option`s (`none` = `nullptr`). -/
noncomputable def calculateMatchingGoals (a : MatchingAlgorithm)
    (Rm Xm VVC0_pF VVC1_pF : ℝ)
    (m0 m1 : Option MotorController) (Rpm Xpm : ℝ)
    (useOutputForRC : Bool) (g0 : MatchingGoals) : MatchingGoals :=
  let g1 := { g0 with valid0 := false, valid1 := false,
                      RAGoal := a.RAGoal_, XAGoal := a.XAGoal_ }
  let pts := a.calculateImpedances Rm Xm VVC0_pF VVC1_pF
  let rcxd : ℝ × ℝ × ℝ :=
    if useOutputForRC = true ∧ (Rpm ≠ 0 ∨ Xpm ≠ 0) then
      let zcOut := a.calculateZCFromOutput Rpm Xpm VVC1_pF
      let pDout := a.calculateZD zcOut.RC zcOut.XC
      (zcOut.RC, zcOut.XC, pDout.2)
    else (pts.RC, pts.XC, pts.XD)
  let RC := rcxd.1
  let XC := rcxd.2.1
  let XD := rcxd.2.2
  let XB := pts.XB
  let RC2 := RC * RC
  let g2 := { g1 with RC_calculated := RC, XC_calculated := XC,
                      XD_calculated := XD }
  let discriminant := 4.0 * (a.disc_const_ + a.disc_RC_coef_ * RC
                             + a.disc_RC2_coef_ * RC2)
  if discriminant < 0 then
    { g2 with XBGoal0 := 0, XBGoal1 := 0,
              VVC0Goal0 := 0, VVC0Goal1 := 0,
              VVC1Goal0 := 0, VVC1Goal1 := 0,
              step0Goal0 := 0, step0Goal1 := 0,
              step1Goal0 := 0, step1Goal1 := 0 }
  else
    let sqrtD := Real.sqrt discriminant
    let denom_XB := 2.0 * (a.RAGoal_ - RC)
    let xb : ℝ × ℝ :=
      if |denom_XB| < 1e-12 then (0, 0)
      else ((-2.0 * RC * a.XAGoal_ - sqrtD) / denom_XB,
            (-2.0 * RC * a.XAGoal_ + sqrtD) / denom_XB)
    let VVC0 := VVC0_pF * MatchingConst.pF
    let VVC1 := VVC1_pF * MatchingConst.pF
    let denom0_VVC0 := 1.0 + VVC0 * a.w_ * XB - VVC0 * a.w_ * xb.1
    let denom1_VVC0 := 1.0 + VVC0 * a.w_ * XB - VVC0 * a.w_ * xb.2
    let v0g0 : ℝ × Bool :=
      if 1e-20 < |denom0_VVC0| then
        ((VVC0 / denom0_VVC0) / MatchingConst.pF,
         decide (0 < (VVC0 / denom0_VVC0) / MatchingConst.pF))
      else (0, false)
    let v0g1 : ℝ × Bool :=
      if 1e-20 < |denom1_VVC0| then
        ((VVC0 / denom1_VVC0) / MatchingConst.pF,
         decide (0 < (VVC0 / denom1_VVC0) / MatchingConst.pF))
      else (0, false)
    let denom_XC := a.RAGoal_ - a.RB_const_
    let xc : ℝ × ℝ :=
      if 1e-12 < |denom_XC| then
        ((-a.RB_const_ * a.XAGoal_ + sqrtD / 2.0) / denom_XC,
         (-a.RB_const_ * a.XAGoal_ - sqrtD / 2.0) / denom_XC)
      else (0, 0)
    let calcXDFromXC : ℝ → ℝ := fun XC_in =>
      let XC2_in := XC_in * XC_in
      let denom := a.D_const_ + a.D_RC2_ * RC2 + a.D_RC_ * RC
                 + a.D_XC_ * XC_in + a.D_XC2_ * XC2_in
      let XD_numer := a.XD_const_ + a.XD_RC2_ * RC2 + a.XD_RC_ * RC
                    + a.XD_XC_ * XC_in + a.XD_XC2_ * XC2_in
      if |denom| < 1e-20 then XC_in else XD_numer / denom
    let xdGoal0 := calcXDFromXC xc.1
    let xdGoal1 := calcXDFromXC xc.2
    let denom0_VVC1 := 1.0 + VVC1 * a.w_ * XD - VVC1 * a.w_ * xdGoal0
    let denom1_VVC1 := 1.0 + VVC1 * a.w_ * XD - VVC1 * a.w_ * xdGoal1
    let v1g0 : ℝ × Bool :=
      if 1e-20 < |denom0_VVC1| then
        ((VVC1 / denom0_VVC1) / MatchingConst.pF,
         if (VVC1 / denom0_VVC1) / MatchingConst.pF < 0 then false else v0g0.2)
      else (0, false)
    let v1g1 : ℝ × Bool :=
      if 1e-20 < |denom1_VVC1| then
        ((VVC1 / denom1_VVC1) / MatchingConst.pF,
         if (VVC1 / denom1_VVC1) / MatchingConst.pF < 0 then false else v0g1.2)
      else (0, false)
    let step0Goal0 := match m0 with
      | some m => m.getPositionFromCap (truncR (v0g0.1 * 100.0))
      | none => 0
    let step0Goal1 := match m0 with
      | some m => m.getPositionFromCap (truncR (v0g1.1 * 100.0))
      | none => 0
    let step1Goal0 := match m1 with
      | some m => m.getPositionFromCap (truncR (v1g0.1 * 100.0))
      | none => 0
    let step1Goal1 := match m1 with
      | some m => m.getPositionFromCap (truncR (v1g1.1 * 100.0))
      | none => 0
    { g2 with
      XBGoal0 := xb.1, XBGoal1 := xb.2,
      VVC0Goal0 := v0g0.1, VVC0Goal1 := v0g1.1,
      XDGoal0 := xdGoal0, XDGoal1 := xdGoal1,
      VVC1Goal0 := v1g0.1, VVC1Goal1 := v1g1.1,
      valid0 := v1g0.2, valid1 := v1g1.2,
      step0Goal0 := step0Goal0, step0Goal1 := step0Goal1,
      step1Goal0 := step1Goal0, step1Goal1 := step1Goal1 }

end MatchingAlgorithm

/-! ## Auto-Match State Machine (`DebugMode.hpp`)

`handleStreaming`'s AMS section (lines 270–428) and the `ams` command
handler (lines 1383–1440) are embedded as pure transition functions over
the AMS-related members of `DebugMode`.  Emitted protocol frames (lines of
the form `OPCODE,...,EN` and `ACK,...`) are collected in a list; plain
`[AMS DEBUG]`-style log prints are not protocol frames and are not
modelled.  The loop time `currentTime` and sensor/motor readings are
inputs. -/

/-- The AMS-related data members of `DebugMode` (plus the `static`
`amsDebugCounter` local of `handleStreaming`). -/
structure AmsState where
  enabled : Bool
  matching : Bool
  verbose : Bool
  interval : ℤ
  timeout : ℤ
  logInterval : ℤ
  logCounter : ℤ
  startTime : ℕ
  lastTime : ℕ
  debugCounter : ℕ

/-- `DebugMode`'s constructor values for the AMS members. -/
def amsInit : AmsState :=
  { enabled := false, matching := false, verbose := true,
    interval := 10, timeout := 5000, logInterval := 1, logCounter := 0,
    startTime := 0, lastTime := 0, debugCounter := 0 }

/-- The C cast `(unsigned long)` of a signed value: reduction mod `2⁶⁴`. -/
def u64 (i : ℤ) : ℕ := (i % (2 ^ 64 : ℤ)).toNat

/-- Protocol frames the AMS emits. -/
inductive Frame where
  | timeoutF (elapsed : ℕ)
  | ackF (op status : String)
  | impedanceF (isInput : Bool) (R X V I phaseDeg : ℝ)
  | matchedF (vswr : ℝ)
  | restartF (vswr : ℝ)
  | runF (goalIdx : ℕ) (vswr : ℝ) (t0 t1 : ℤ)

/-- Fixed collaborators of the AMS loop: the `static MatchingAlgorithm`
instance, the two motors, the VSWR thresholds from `matcherInfo` and
whether sensors and motion board are present (non-null). -/
structure AmsEnv where
  algo : MatchingAlgorithm
  m0 : MotorController
  m1 : MotorController
  vswrStop : ℝ
  vswrRestart : ℝ
  present : Bool

/-- Per-tick inputs: the loop time, both sensor samples, the two
capacitance readings `M1.getCapacitance()` / `M2.getCapacitance()`
(pF × 100), and the indeterminate initial contents of the local
`MatchingGoals` struct. -/
structure AmsTickInput where
  now : ℕ
  iRes : AveragedImpedanceResults
  oRes : AveragedImpedanceResults
  cap0 : ℤ
  cap1 : ℤ
  g0 : MatchingGoals

/-- `handleStreaming` line 363: the output sensor feeds the RC/XC
calculation only in the high-VSWR regime. -/
noncomputable def amsUseOutputForRC (vswr : ℝ) : Bool :=
  decide (2.0 < vswr)

/-- `handleStreaming` lines 368–398: goal selection.  A goal is selected
only when its `valid` flag is set AND both of its capacitance targets
(`(int32_t)(goal * 100.0)`) lie within the corresponding motor's
`[minCap, maxCap]` band; goal 0 is preferred.  Returns the goal index and
the two step targets passed to `RunMotor`. -/
noncomputable def amsSelectGoal (m0 m1 : MotorController)
    (goals : MatchingGoals) : Option (ℕ × ℤ × ℤ) :=
  let cap0Goal0 := truncR (goals.VVC0Goal0 * 100.0)
  let cap1Goal0 := truncR (goals.VVC1Goal0 * 100.0)
  let cap0Goal1 := truncR (goals.VVC0Goal1 * 100.0)
  let cap1Goal1 := truncR (goals.VVC1Goal1 * 100.0)
  if goals.valid0 = true ∧
     m0.minCap ≤ cap0Goal0 ∧ cap0Goal0 ≤ m0.maxCap ∧
     m1.minCap ≤ cap1Goal0 ∧ cap1Goal0 ≤ m1.maxCap then
    some (0, goals.step0Goal0, goals.step1Goal0)
  else if goals.valid1 = true ∧
     m0.minCap ≤ cap0Goal1 ∧ cap0Goal1 ≤ m0.maxCap ∧
     m1.minCap ≤ cap1Goal1 ∧ cap1Goal1 ≤ m1.maxCap then
    some (1, goals.step0Goal1, goals.step1Goal1)
  else none

/-- The AMS section of `DebugMode::handleStreaming` (lines 270–428), as a
transition on `AmsState` returning the emitted protocol frames and the
`RunMotor` commands `(motor index, target step)` issued this tick. -/
noncomputable def amsTick (env : AmsEnv) (st : AmsState)
    (inp : AmsTickInput) : AmsState × List Frame × List (ℕ × ℤ) :=
  if ¬(st.enabled = true ∧ env.present = true) then (st, [], [])
  else
    let elapsedTotal := inp.now - st.startTime
    let dbg := st.debugCounter + 1
    if 0 < st.timeout ∧ u64 st.timeout ≤ elapsedTotal then
      ({ st with enabled := false, matching := false, debugCounter := 0 },
       (if st.verbose = true then [Frame.timeoutF elapsedTotal] else []) ++
         [Frame.ackF "ams" "TIMEOUT"], [])
    else
      let st0 := { st with debugCounter := dbg }
      let elapsedMs := inp.now - st.lastTime
      if elapsedMs < u64 st.interval then (st0, [], [])
      else
        let st1 := { st0 with lastTime := inp.now,
                              logCounter := st.logCounter + 1 }
        let shouldLog := st.verbose = true ∧ st.logInterval ≤ st.logCounter + 1
        let st2 := if shouldLog then { st1 with logCounter := 0 } else st1
        let logFrames :=
          if shouldLog then
            [Frame.impedanceF true inp.iRes.resistanceR inp.iRes.reactanceX
               inp.iRes.voltageMagnitude inp.iRes.currentMagnitude
               inp.iRes.impedancePhaseDeg,
             Frame.impedanceF false inp.oRes.resistanceR inp.oRes.reactanceX
               inp.oRes.voltageMagnitude inp.oRes.currentMagnitude
               inp.oRes.impedancePhaseDeg]
          else []
        let vswr := calculateVSWR inp.iRes.resistanceR inp.iRes.reactanceX 50.0
        if st.matching = true then
          if vswr ≤ env.vswrStop then
            ({ st2 with matching := false },
             logFrames ++ (if st.verbose = true then [Frame.matchedF vswr] else []),
             [])
          else
            let VVC0_pF := (inp.cap0 : ℝ) / 100.0
            let VVC1_pF := (inp.cap1 : ℝ) / 100.0
            let useOut := amsUseOutputForRC vswr
            let goals := env.algo.calculateMatchingGoals
                           inp.iRes.resistanceR inp.iRes.reactanceX
                           VVC0_pF VVC1_pF (some env.m0) (some env.m1)
                           inp.oRes.resistanceR inp.oRes.reactanceX
                           useOut inp.g0
            match amsSelectGoal env.m0 env.m1 goals with
            | some sel =>
                (st2,
                 logFrames ++
                   (if shouldLog then [Frame.runF sel.1 vswr sel.2.1 sel.2.2] else []),
                 [(0, sel.2.1), (1, sel.2.2)])
            | none => (st2, logFrames, [])
        else
          if env.vswrRestart ≤ vswr then
            ({ st2 with matching := true },
             logFrames ++ (if st.verbose = true then [Frame.restartF vswr] else []),
             [])
          else (st2, logFrames, [])

/-- `DebugMode` `ams stop` handling (lines 1384–1390). -/
def amsCmdStop (st : AmsState) : AmsState × List Frame :=
  ({ st with enabled := false, matching := false },
   [Frame.ackF "ams" "STOP"])

/-- `DebugMode` `ams start` handling (lines 1392–1439): optional
interval / timeout / logInterval arguments are clamped, the AMS is enabled
in matching mode with verbose output, and the clocks are reset. -/
def amsCmdStart (st : AmsState) (present : Bool)
    (arg1 arg2 arg3 : Option ℤ) (now : ℕ) : AmsState × List Frame :=
  if present = false then (st, [Frame.ackF "ams" "ERROR"])
  else
    let interval1 := match arg1 with
      | some v =>
          let v1 := if v < 1 then 1 else v
          if 1000 < v1 then 1000 else v1
      | none => st.interval
    let timeout1 := match arg2 with
      | some v =>
          let v1 := if v ≠ 0 ∧ v < 100 then 100 else v
          if 60000 < v1 then 60000 else v1
      | none => st.timeout
    let logInterval1 := match arg3 with
      | some v =>
          let v1 := if v < 1 then 1 else v
          if 1000 < v1 then 1000 else v1
      | none => 1
    ({ st with enabled := true, matching := true, verbose := true,
               logCounter := 0, startTime := now, lastTime := now,
               interval := interval1, timeout := timeout1,
               logInterval := logInterval1 },
     [Frame.ackF "ams" "START"])

/-- The AMS states reachable in debug-shell mode: the constructor state,
closed under the `ams stop` / `ams start` commands and the per-tick
transition. -/
inductive AmsReachable (env : AmsEnv) : AmsState → Prop where
  | init : AmsReachable env amsInit
  | stop {s : AmsState} : AmsReachable env s →
      AmsReachable env (amsCmdStop s).1
  | start {s : AmsState} (a1 a2 a3 : Option ℤ) (now : ℕ) :
      AmsReachable env s →
      AmsReachable env (amsCmdStart s env.present a1 a2 a3 now).1
  | tick {s : AmsState} (inp : AmsTickInput) : AmsReachable env s →
      AmsReachable env (amsTick env s inp).1

/-! ## Concrete instances used in the theorems below -/

/-- A motor with the constructor's default limits and caps
(`minValue 0, maxValue 64000, lowerLimit 4000, upperLimit 60000,
minCap 0, maxCap 100000`), uncalibrated fit, GPIO initialised. -/
def bootMotor : MotorController :=
  { gpioInitialized := true, minValue := 0, maxValue := 64000,
    lowerLimit := 4000, upperLimit := 60000, minCap := 0, maxCap := 100000,
    fitCoeffs := ⟨0, 0, 0, 0⟩ }

/-- The calibration scenario of the specification's test section:
`fit_coeffs = (0, 100, 0, 0)`, `[min, max] = [0, 64000]`,
`[min_cap, max_cap] = [0, 10000]` (pF × 100). -/
def scenarioMotor : MotorController :=
  { gpioInitialized := true, minValue := 0, maxValue := 64000,
    lowerLimit := 4000, upperLimit := 60000, minCap := 0, maxCap := 10000,
    fitCoeffs := ⟨0, 100, 0, 0⟩ }

/-- A calibrated motor whose normalised cubic is the nonzero constant
5 pF (`fit_coeffs = (5, 0, 0, 0)`): `isFittingCalibrated` holds, yet the
polynomial carries no position information. -/
def constFitMotor : MotorController :=
  { scenarioMotor with fitCoeffs := ⟨5, 0, 0, 0⟩ }

/-- A concrete coefficient assignment for `MatchingAlgorithm` with
transparent member values, used to instantiate witnesses.  (The runtime
methods are functions of the member values, so any member assignment
exercises them; claim-level counterexamples use the constructor-built
`mk'` instead.) -/
def algoStub : MatchingAlgorithm :=
  { w_ := 1, w2_ := 1, w3_ := 1, w4_ := 1, w5_ := 1, w6_ := 1,
    denom_A_const_ := 1, denom_A_Rm2_ := 0, denom_A_Xm_ := 0, denom_A_Xm2_ := 0,
    XA_const_ := 0, XA_Rm2_ := 0, XA_Xm_ := 1, XA_Xm2_ := 0,
    denomB_const_ := 1, RB_const_ := 1,
    XB_numer_const_ := 0, XB_numer_VVC0_ := 0, XB_denom_factor_ := 1,
    E_CD0_ := 0, E_CD02_ := 0, E_2CD0_ := 0, E_CD0_w_ := 0, E_2CD0_w_ := 0,
    E_CD02_w_ := 0, E_2CD02_w_ := 0, E_CD02_w2_ := 0,
    RE0_ := 0, LE0_w_ := 0,
    D_const_ := 1, D_RC2_ := 0, D_RC_ := 0, D_XC_ := 0, D_XC2_ := 0,
    RD_const_ := 0, RD_RC_ := 1,
    XD_const_ := 0, XD_RC2_ := 0, XD_RC_ := 0, XD_XC_ := 0, XD_XC2_ := 0,
    RAGoal_ := 1, XAGoal_ := 0, RAGoal2_ := 1, XAGoal2_ := 0, RB2_ := 1,
    disc_const_ := -1, disc_RC_coef_ := 0, disc_RC2_coef_ := 0 }

/-- Indeterminate initial contents of the local `MatchingGoals goals;`
struct: every member is the recognisable junk value 42 / `true`. -/
def junkGoals : MatchingGoals :=
  { VVC0Goal0 := 42, VVC1Goal0 := 42, step0Goal0 := 42, step1Goal0 := 42,
    valid0 := true,
    VVC0Goal1 := 42, VVC1Goal1 := 42, step0Goal1 := 42, step1Goal1 := 42,
    valid1 := true,
    RAGoal := 42, XAGoal := 42, XBGoal0 := 42, XBGoal1 := 42,
    XDGoal0 := 42, XDGoal1 := 42,
    RC_calculated := 42, XC_calculated := 42, XD_calculated := 42 }

/-- The goals record returned by the production-constant algorithm
instance `mk'` for the measured impedance `(Rm, Xm) = (200, 100)` Ω with
both VVCs at 50 pF — a concrete input whose discriminant is negative
(about `-1.25e6`). -/
noncomputable def discNegGoals : MatchingGoals :=
  MatchingAlgorithm.mk'.calculateMatchingGoals 200 100 50 50
    (some bootMotor) (some bootMotor) 0 0 false junkGoals

/-- An all-zero sensor sample. -/
def zeroRes : AveragedImpedanceResults := ⟨0, 0, 0, 0, 0, 0⟩

/-- A concrete AMS environment for witnesses. -/
noncomputable def envStub : AmsEnv :=
  { algo := algoStub, m0 := bootMotor, m1 := bootMotor,
    vswrStop := 1.02, vswrRestart := 1.04, present := true }

/-- A concrete AMS state that is enabled, matching, with a 5000 ms
timeout started at time 0. -/
def c7state : AmsState :=
  { amsInit with enabled := true, matching := true, timeout := 5000 }

/-- A concrete tick input at loop time 5000 ms. -/
def c7input : AmsTickInput :=
  { now := 5000, iRes := zeroRes, oRes := zeroRes,
    cap0 := 0, cap1 := 0, g0 := junkGoals }


/-! ## Helper lemmas -/

theorem truncQ_intCast (k : ℤ) : truncQ (k : ℚ) = k := by
  unfold truncQ
  split <;> simp

theorem truncR_zero : truncR 0 = 0 := by
  unfold truncR
  simp

theorem intClamp_eq (lo hi t : ℤ) (h : lo ≤ hi) :
    max lo (min t hi) = if t < lo then lo else if hi < t then hi else t := by
  simp only [max_def, min_def]
  split_ifs <;> omega

/-! ## Claim theorems -/

/-- C3: on loading the AMS settings record, the timeout field's lower
bound is checked against `settings[0]` instead of `settings[1]`
(`MotionBoard.hpp` line 1872), so a negative timeout is accepted whenever
the interval field is non-negative, and an in-range timeout is discarded
whenever the interval field is negative — the fields are not validated
independently, contrary to the claim.  The VSWR record, by contrast, is
validated field by field.  This theorem evaluates the embedded loads at
both failing inputs and at a VSWR record with only the stop field out of
range. -/
theorem C3_load_validation_bug :
    loadAmsSettings (some (10, -5, 10)) = (10, -5, 10) ∧
    ¬ (0 ≤ (-5 : ℤ) ∧ (-5 : ℤ) ≤ 60000) ∧
    loadAmsSettings (some (-1, 100, 10)) = (10, 0, 10) ∧
    (0 ≤ (100 : ℤ) ∧ (100 : ℤ) ≤ 60000) ∧
    loadVswrSettings (some (2, 7, 2)) = (2, 1.02, 2) := by
  refine ⟨by decide, by decide, by decide, by decide, ?_⟩
  norm_num [loadVswrSettings]

/-- C6: for an initialised motor with a well-formed soft window,
`RunMotor` writes exactly `clamp(target, lowerLimit, upperLimit)` to the
target-position register, logs the clamp message exactly when the clamp
changed the value, and the written position always lies inside the
window. -/
theorem C6_runMotor_clamps (m : MotorController) (t : ℤ)
    (hg : m.gpioInitialized = true) (hlim : m.lowerLimit ≤ m.upperLimit) :
    (m.RunMotor t).written = some (max m.lowerLimit (min t m.upperLimit)) ∧
    ((m.RunMotor t).clampLogged = true ↔
      max m.lowerLimit (min t m.upperLimit) ≠ t) ∧
    m.lowerLimit ≤ max m.lowerLimit (min t m.upperLimit) ∧
    max m.lowerLimit (min t m.upperLimit) ≤ m.upperLimit := by
  rw [intClamp_eq _ _ _ hlim]
  simp only [MotorController.RunMotor, hg, Bool.true_eq_false, if_false]
  split_ifs with h1 h2 <;>
    refine ⟨rfl, ?_, by omega, by omega⟩ <;>
    simp <;> omega

/-- Witness for C6 at the default motor and an out-of-window target. -/
theorem C6_runMotor_clamps_witness :
    (bootMotor.RunMotor 70000).written
      = some (max bootMotor.lowerLimit (min 70000 bootMotor.upperLimit)) ∧
    ((bootMotor.RunMotor 70000).clampLogged = true ↔
      max bootMotor.lowerLimit (min 70000 bootMotor.upperLimit) ≠ 70000) ∧
    bootMotor.lowerLimit ≤ max bootMotor.lowerLimit (min 70000 bootMotor.upperLimit) ∧
    max bootMotor.lowerLimit (min 70000 bootMotor.upperLimit) ≤ bootMotor.upperLimit :=
  C6_runMotor_clamps bootMotor 70000 rfl (by decide)

/-- C9: `getPositionPercent` always returns a value in `[0, 100]`; it is
`0` when `maxValue ≤ minValue`, and otherwise it is the integer
percentage of the position inside the travel range clamped to
`[0, 100]`, for every register reading `pos` (including positions
outside the travel range). -/
theorem C9_positionPercent_clamped (m : MotorController) (pos : ℤ) :
    0 ≤ m.getPositionPercent pos ∧ m.getPositionPercent pos ≤ 100 ∧
    (m.maxValue ≤ m.minValue → m.getPositionPercent pos = 0) ∧
    (m.minValue < m.maxValue →
      m.getPositionPercent pos =
        max 0 (min 100
          (Int.tdiv ((pos - m.minValue) * 100) (m.maxValue - m.minValue)))) := by
  simp only [MotorController.getPositionPercent]
  split_ifs with h1 h2 h3 <;> omega

/-- Witness for C9: a position above the travel range still yields a
value in `[0, 100]`. -/
theorem C9_positionPercent_witness :
    bootMotor.minValue < bootMotor.maxValue ∧
    bootMotor.getPositionPercent 70000 =
      max 0 (min 100
        (Int.tdiv ((70000 - bootMotor.minValue) * 100)
          (bootMotor.maxValue - bootMotor.minValue))) :=
  ⟨by decide, (C9_positionPercent_clamped bootMotor 70000).2.2.2 (by decide)⟩

/-- One Newton iteration of `getPositionFromCap` stops at `x` when the
residual is inside the 0.1 pF tolerance. -/
theorem newtonIter_break (fc : FitCoeffs) (t lo hi : ℚ) (n : ℕ) (x : ℚ)
    (h : |fc.c3 * (x * x * x) + fc.c2 * (x * x) + fc.c1 * x + fc.c0 - t| < 1 / 10) :
    MotorController.newtonIter fc t lo hi (n + 1) x = x := by
  rw [MotorController.newtonIter]
  dsimp only
  rw [if_pos h]

/-- One Newton iteration of `getPositionFromCap` advances to the clamped
Newton update when neither break guard fires. -/
theorem newtonIter_step (fc : FitCoeffs) (t lo hi : ℚ) (n : ℕ) (x : ℚ)
    (h : ¬ |fc.c3 * (x * x * x) + fc.c2 * (x * x) + fc.c1 * x + fc.c0 - t| < 1 / 10)
    (h' : ¬ |3 * fc.c3 * (x * x) + 2 * fc.c2 * x + fc.c1| < 1 / 10 ^ 10) :
    MotorController.newtonIter fc t lo hi (n + 1) x =
      MotorController.newtonIter fc t lo hi n
        (if x - (fc.c3 * (x * x * x) + fc.c2 * (x * x) + fc.c1 * x + fc.c0 - t) /
              (3 * fc.c3 * (x * x) + 2 * fc.c2 * x + fc.c1) < lo then lo
         else if hi < x - (fc.c3 * (x * x * x) + fc.c2 * (x * x) + fc.c1 * x + fc.c0 - t) /
              (3 * fc.c3 * (x * x) + 2 * fc.c2 * x + fc.c1) then hi
         else x - (fc.c3 * (x * x * x) + fc.c2 * (x * x) + fc.c1 * x + fc.c0 - t) /
              (3 * fc.c3 * (x * x) + 2 * fc.c2 * x + fc.c1)) := by
  rw [MotorController.newtonIter]
  dsimp only
  rw [if_neg h, if_neg h']

/-- The Newton loop of the calibration-scenario motor (exact-rational
model), started from the window midpoint `1/2`, converges to the exact
normalised position `m/2000` for targets `5m` centi-pF (except in the
early-break zone around the midpoint, where it stops at `1/2` — excluded
by the hypothesis). -/
theorem newton_scenario (m : ℤ) (h1 : 125 ≤ m) (h2 : m ≤ 1875)
    (h3 : m ≤ 997 ∨ m = 1000 ∨ 1003 ≤ m) :
    MotorController.newtonIter ⟨0, 100, 0, 0⟩ (5 * (m : ℚ) / 100) (1 / 16) (15 / 16) 20 (1 / 2)
      = (m : ℚ) / 2000 := by
  have hm1 : (125 : ℚ) ≤ (m : ℚ) := by exact_mod_cast h1
  have hm2 : ((m : ℚ)) ≤ 1875 := by exact_mod_cast h2
  rcases h3 with h3 | h3 | h3
  · have hm3 : ((m : ℚ)) ≤ 997 := by exact_mod_cast h3
    rw [show (20 : ℕ) = 19 + 1 from rfl,
        newtonIter_step _ _ _ _ _ _
          (by simp only; rw [abs_of_nonneg (by norm_num; linarith)]; norm_num; linarith)
          (by norm_num)]
    norm_num
    rw [show (1 : ℚ) / 2 - (50 - 5 * (m : ℚ) / 100) / 100 = (m : ℚ) / 2000 by ring]
    rw [if_neg (by linarith), if_neg (by linarith)]
    rw [show (19 : ℕ) = 18 + 1 from rfl,
        newtonIter_break _ _ _ _ _ _
          (by norm_num;
              rw [show (100 : ℚ) * ((m : ℚ) / 2000) = 5 * (m : ℚ) / 100 by ring];
              norm_num)]
  · subst h3
    rw [show (20 : ℕ) = 19 + 1 from rfl,
        newtonIter_break _ _ _ _ _ _ (by norm_num)]
    norm_num
  · have hm3 : (1003 : ℚ) ≤ ((m : ℚ)) := by exact_mod_cast h3
    rw [show (20 : ℕ) = 19 + 1 from rfl,
        newtonIter_step _ _ _ _ _ _
          (by simp only; rw [abs_of_nonpos (by norm_num; linarith)]; norm_num; linarith)
          (by norm_num)]
    norm_num
    rw [show (1 : ℚ) / 2 - (50 - 5 * (m : ℚ) / 100) / 100 = (m : ℚ) / 2000 by ring]
    rw [if_neg (by linarith), if_neg (by linarith)]
    rw [show (19 : ℕ) = 18 + 1 from rfl,
        newtonIter_break _ _ _ _ _ _
          (by norm_num;
              rw [show (100 : ℚ) * ((m : ℚ) / 2000) = 5 * (m : ℚ) / 100 by ring];
              norm_num)]

/-- Round-trip lemma of the EXACT-RATIONAL model only: in this
embedding, the calibration-scenario round trip is the identity at every
`s = 32·m` outside the mid-travel early-break zone.  The float32 source
deviates from the exact-rational evaluation at many of these points
(e.g. at `s = 4416` float32 computes capacitance 689, not 690, and
round-trips to 4410), so this lemma is NOT a statement about the
program off the dyadic sublattice; the claim-level theorem
`C8_roundtrip_amended_dyadic` below instantiates it only at
`m = 125·k`, where the program's float32 trace is exact. -/
theorem roundtripQ_lattice (m : ℤ) (h1 : 125 ≤ m) (h2 : m ≤ 1875)
    (h3 : m ≤ 997 ∨ m = 1000 ∨ 1003 ≤ m) :
    scenarioMotor.getPositionFromCap (scenarioMotor.getCapacitanceAt (32 * m)) = 32 * m := by
  have hm1 : (125 : ℚ) ≤ (m : ℚ) := by exact_mod_cast h1
  have hcap : scenarioMotor.getCapacitanceAt (32 * m) = 5 * m := by
    simp only [MotorController.getCapacitanceAt, MotorController.isFittingCalibrated,
      scenarioMotor]
    norm_num
    rw [show (100 * (32 * (m : ℚ) / 64000) * 100 : ℚ) = ((5 * m : ℤ) : ℚ) by
      push_cast; ring]
    exact truncQ_intCast _
  rw [hcap]
  simp only [MotorController.getPositionFromCap, MotorController.isFittingCalibrated,
    scenarioMotor]
  norm_num
  rw [newton_scenario m h1 h2 h3]
  rw [show ((m : ℚ) / 2000 * 64000 + 1 / 2 : ℚ) = ((32 * m : ℤ) : ℚ) + 1 / 2 by
    push_cast; ring]
  unfold truncQ
  rw [if_pos (by push_cast; linarith)]
  rw [add_comm, Int.floor_add_int]
  norm_num

/-- C8 (counterexample): the round-trip claim fails as stated.  For the
calibrated constant-fit motor (`fit_coeffs = (5, 0, 0, 0)`, not all
zero), `getPositionFromCap (getCapacitanceAt 4000)` returns the window
midpoint 32000, which is 28000 steps away from `s = 4000`; and even for
the specification's own linear calibration scenario, at `s = 31968` the
0.1 pF Newton tolerance stops at 32000, 32 steps away. -/
theorem C8_roundtrip_counterexample :
    constFitMotor.isFittingCalibrated = true ∧
    constFitMotor.lowerLimit ≤ 4000 ∧ (4000 : ℤ) ≤ constFitMotor.upperLimit ∧
    constFitMotor.getPositionFromCap (constFitMotor.getCapacitanceAt 4000) = 32000 ∧
    ¬ (|(32000 : ℤ) - 4000| ≤ 1) ∧
    scenarioMotor.getPositionFromCap (scenarioMotor.getCapacitanceAt 31968) = 32000 ∧
    ¬ (|(32000 : ℤ) - 31968| ≤ 1) := by
  have hfloor : truncQ ((1 : ℚ) / 2 * 64000 + 1 / 2) = 32000 := by
    rw [show ((1 : ℚ) / 2 * 64000 + 1 / 2 : ℚ) = ((32000 : ℤ) : ℚ) + 1 / 2 by norm_num]
    unfold truncQ
    rw [if_pos (by push_cast; norm_num)]
    rw [add_comm, Int.floor_add_int]
    norm_num
  refine ⟨by decide, by decide, by decide, ?_, by decide, ?_, by decide⟩
  · have hcap : constFitMotor.getCapacitanceAt 4000 = 500 := by
      norm_num [MotorController.getCapacitanceAt, MotorController.isFittingCalibrated,
        constFitMotor, scenarioMotor, truncQ]
    rw [hcap]
    simp only [MotorController.getPositionFromCap, MotorController.isFittingCalibrated,
      constFitMotor, scenarioMotor]
    norm_num
    rw [show (20 : ℕ) = 19 + 1 from rfl, newtonIter_break _ _ _ _ _ _ (by norm_num)]
    exact hfloor
  · have hcap : scenarioMotor.getCapacitanceAt 31968 = 4995 := by
      norm_num [MotorController.getCapacitanceAt, MotorController.isFittingCalibrated,
        scenarioMotor, truncQ]
    rw [hcap]
    simp only [MotorController.getPositionFromCap, MotorController.isFittingCalibrated,
      scenarioMotor]
    norm_num
    rw [show (20 : ℕ) = 19 + 1 from rfl,
        newtonIter_break _ _ _ _ _ _
          (by norm_num; rw [abs_of_nonneg (by norm_num)]; norm_num)]
    exact hfloor

/-- C8 (amended): the `±1` round-trip law does not hold for arbitrary
calibrated motors and positions (see the counterexample); for the
specification's own calibration scenario
(`fit_coeffs = (0, 100, 0, 0)`, `[min, max] = [0, 64000]`, window
`[4000, 60000]`) it does hold — exactly, deviation 0 — at every step
`s = 4000·k`, `k ∈ [1, 15]` (the spec's test point `s = 16000` is
`k = 4`).  On these inputs every intermediate value of the source's
float32 computation is a dyadic rational exactly representable in
float32 — `xNorm = k/16`, `cap = 6.25·k` pF, `capInt = 625·k`,
`target = 6.25·k` pF, Newton residuals `6.25·(8-k)` and `0`, update
`0.5 - (8-k)/16 = k/16`, `step = 4000·k + 0.5` — so each IEEE rounding
is the identity, the `0.1f` break comparison sees either `0` or a
residual of magnitude `≥ 6.25`, and the exact-rational embedding
coincides with the program's float32 evaluation. -/
theorem C8_roundtrip_amended_dyadic (k : ℤ) (h1 : 1 ≤ k) (h2 : k ≤ 15) :
    scenarioMotor.getPositionFromCap
      (scenarioMotor.getCapacitanceAt (4000 * k)) = 4000 * k := by
  rw [show (4000 * k : ℤ) = 32 * (125 * k) by ring]
  refine roundtripQ_lattice (125 * k) (by omega) (by omega) ?_
  by_cases hk : k ≤ 7
  · exact Or.inl (by omega)
  · by_cases hk8 : k = 8
    · exact Or.inr (Or.inl (by omega))
    · exact Or.inr (Or.inr (by omega))

/-- Witness for C8 (amended) at `k = 4`, i.e. the specification's own
test point `s = 16000`. -/
theorem C8_roundtrip_dyadic_witness :
    (1 : ℤ) ≤ 4 ∧ (4 : ℤ) ≤ 15 ∧
    scenarioMotor.getPositionFromCap
      (scenarioMotor.getCapacitanceAt (4000 * 4)) = 4000 * 4 :=
  ⟨by decide, by decide,
   C8_roundtrip_amended_dyadic 4 (by decide) (by decide)⟩

/-- C4: `calculateVSWR(R, X)` returns `(1 + Γ)/(1 - Γ)` with
`Γ = √(((R - 50)² + X²)/((R + 50)² + X²))` whenever the denominator is at
least `1e-12` and `Γ < 1`, and returns 999 otherwise; in particular the
VSWR of a perfect 50 Ω + 0 j load is 1.0 within 1e-6 (exactly 1 in the
real-number embedding). -/
theorem C4_vswr_formula :
    (∀ R X : ℝ,
      ((1e-12 : ℝ) ≤ (R + 50) * (R + 50) + X * X →
        (Real.sqrt (((R - 50) * (R - 50) + X * X) / ((R + 50) * (R + 50) + X * X)) < 1 →
          calculateVSWR R X 50 =
            (1 + Real.sqrt (((R - 50) * (R - 50) + X * X) / ((R + 50) * (R + 50) + X * X))) /
            (1 - Real.sqrt (((R - 50) * (R - 50) + X * X) / ((R + 50) * (R + 50) + X * X)))) ∧
        (1 ≤ Real.sqrt (((R - 50) * (R - 50) + X * X) / ((R + 50) * (R + 50) + X * X)) →
          calculateVSWR R X 50 = 999)) ∧
      ((R + 50) * (R + 50) + X * X < 1e-12 → calculateVSWR R X 50 = 999)) ∧
    |calculateVSWR 50 0 50 - 1| ≤ 1e-6 := by
  have hval : ∀ R X : ℝ, calculateVSWR R X 50 =
      if (R + 50) * (R + 50) + X * X < 1e-12 then 999
      else if 1 ≤ Real.sqrt (((R - 50) * (R - 50) + X * X) / ((R + 50) * (R + 50) + X * X))
      then 999
      else (1 + Real.sqrt (((R - 50) * (R - 50) + X * X) / ((R + 50) * (R + 50) + X * X))) /
           (1 - Real.sqrt (((R - 50) * (R - 50) + X * X) / ((R + 50) * (R + 50) + X * X))) := by
    intro R X
    simp only [calculateVSWR]
    norm_num
  constructor
  · intro R X
    refine ⟨fun hd => ⟨fun hg => ?_, fun hg => ?_⟩, fun hd => ?_⟩
    · rw [hval, if_neg (not_lt.2 hd), if_neg (not_le.2 hg)]
    · rw [hval, if_neg (not_lt.2 hd), if_pos hg]
    · rw [hval, if_pos hd]
  · have h0 : calculateVSWR 50 0 50 = 1 := by
      rw [hval]
      rw [if_neg (by norm_num)]
      rw [show (((50 : ℝ) - 50) * (50 - 50) + 0 * 0) / ((50 + 50) * (50 + 50) + 0 * 0) = 0 by
        norm_num]
      rw [Real.sqrt_zero]
      norm_num
    rw [h0]
    norm_num

/-- Witness for C4 at the perfect load `(R, X) = (50, 0)`. -/
theorem C4_vswr_formula_witness :
    (1e-12 : ℝ) ≤ ((50 : ℝ) + 50) * (50 + 50) + 0 * 0 ∧
    Real.sqrt ((((50 : ℝ) - 50) * (50 - 50) + 0 * 0) / ((50 + 50) * (50 + 50) + 0 * 0)) < 1 ∧
    calculateVSWR 50 0 50 =
      (1 + Real.sqrt ((((50 : ℝ) - 50) * (50 - 50) + 0 * 0) / ((50 + 50) * (50 + 50) + 0 * 0))) /
      (1 - Real.sqrt ((((50 : ℝ) - 50) * (50 - 50) + 0 * 0) / ((50 + 50) * (50 + 50) + 0 * 0))) :=
  ⟨by norm_num,
   by rw [show (((50 : ℝ) - 50) * (50 - 50) + 0 * 0) / ((50 + 50) * (50 + 50) + 0 * 0) = 0 by
        norm_num, Real.sqrt_zero]
      norm_num,
   ((C4_vswr_formula.1 50 0).1 (by norm_num)).1
     (by rw [show (((50 : ℝ) - 50) * (50 - 50) + 0 * 0) / ((50 + 50) * (50 + 50) + 0 * 0) = 0 by
           norm_num, Real.sqrt_zero]
         norm_num)⟩

set_option maxHeartbeats 8000000 in
/-- Evaluation of `calculateMatchingGoals` on the production-constant
instance at the negative-discriminant input `(200, 100, 50, 50)`: the
early-return branch is taken, so the valid flags are false, the
capacitance goals, XB reactance goals and step targets are zero, and the
XD reactance goals keep the indeterminate initial struct contents. -/
theorem discNegGoals_fields :
    discNegGoals.valid0 = false ∧
    discNegGoals.VVC0Goal0 = 0 ∧ discNegGoals.VVC1Goal0 = 0 ∧
    discNegGoals.valid1 = false ∧
    discNegGoals.VVC0Goal1 = 0 ∧ discNegGoals.VVC1Goal1 = 0 ∧
    discNegGoals.XBGoal0 = 0 ∧ discNegGoals.XBGoal1 = 0 ∧
    discNegGoals.step0Goal0 = 0 ∧ discNegGoals.step0Goal1 = 0 ∧
    discNegGoals.step1Goal0 = 0 ∧ discNegGoals.step1Goal1 = 0 ∧
    discNegGoals.XDGoal0 = junkGoals.XDGoal0 ∧
    discNegGoals.XDGoal1 = junkGoals.XDGoal1 := by
  simp only [discNegGoals, MatchingAlgorithm.calculateMatchingGoals,
    MatchingAlgorithm.calculateImpedances, MatchingAlgorithm.calculateZA,
    MatchingAlgorithm.calculateZB, MatchingAlgorithm.calculateZC,
    MatchingAlgorithm.calculateZD, MatchingAlgorithm.calculateZE,
    MatchingAlgorithm.calculateZP, MatchingAlgorithm.mk',
    MatchingConst.OMEGA, MatchingConst.PI, MatchingConst.FREQ,
    MatchingConst.Lp, MatchingConst.Cp, MatchingConst.LB0, MatchingConst.RB0,
    MatchingConst.CB0, MatchingConst.RC0, MatchingConst.LC0, MatchingConst.CC0,
    MatchingConst.CC1, MatchingConst.CD0, MatchingConst.RE0, MatchingConst.LE0,
    MatchingConst.Z_TARGET, MatchingConst.nH, MatchingConst.pF, MatchingConst.uH]
  norm_num [abs_lt]

/-- C5 (evaluated at the failing input, on the production-constant
instance): when the discriminant is negative, `calculateMatchingGoals`
returns both valid flags false and zeroes the capacitance goals, XB
reactance goals and step targets — but the XD reactance goals `XDGoal0` /
`XDGoal1` are never assigned on this path, so the returned struct
carries whatever indeterminate values the default-initialised local held
(modelled by `junkGoals`, here 42), not zero as the claim states. -/
theorem C5_disc_negative_evaluation :
    discNegGoals.valid0 = false ∧ discNegGoals.valid1 = false ∧
    discNegGoals.VVC0Goal0 = 0 ∧ discNegGoals.VVC0Goal1 = 0 ∧
    discNegGoals.VVC1Goal0 = 0 ∧ discNegGoals.VVC1Goal1 = 0 ∧
    discNegGoals.XBGoal0 = 0 ∧ discNegGoals.XBGoal1 = 0 ∧
    discNegGoals.step0Goal0 = 0 ∧ discNegGoals.step0Goal1 = 0 ∧
    discNegGoals.step1Goal0 = 0 ∧ discNegGoals.step1Goal1 = 0 ∧
    discNegGoals.XDGoal0 = junkGoals.XDGoal0 ∧
    discNegGoals.XDGoal1 = junkGoals.XDGoal1 ∧
    junkGoals.XDGoal0 = 42 := by
  obtain ⟨h1, h2, h3, h4, h5, h6, h7, h8, h9, h10, h11, h12, h13, h14⟩ :=
    discNegGoals_fields
  exact ⟨h1, h4, h2, h5, h3, h6, h7, h8, h9, h10, h11, h12, h13, h14, rfl⟩

/-- C1 (counterexample): the `valid` flag of a returned solution is not
equivalent to its two capacitance goals lying in the motors'
`[minCap, maxCap]` bands.  At the production constants and the input
`(Rm, Xm, VVC0, VVC1) = (200, 100, 50, 50)` the discriminant is
negative, so `valid0 = false` while both capacitance goals are 0, which
lies inside the default band `[0, 100000]` of both motors: the
right-hand side of the claimed equivalence is true and the left-hand
side false. -/
theorem C1_valid_band_counterexample :
    ¬ (discNegGoals.valid0 = true ↔
       (bootMotor.minCap ≤ truncR (discNegGoals.VVC0Goal0 * 100) ∧
        truncR (discNegGoals.VVC0Goal0 * 100) ≤ bootMotor.maxCap ∧
        bootMotor.minCap ≤ truncR (discNegGoals.VVC1Goal0 * 100) ∧
        truncR (discNegGoals.VVC1Goal0 * 100) ≤ bootMotor.maxCap)) := by
  obtain ⟨h1, h2, h3, _⟩ := discNegGoals_fields
  rw [h1, h2, h3, zero_mul, truncR_zero]
  simp only [bootMotor]
  decide

/-- C1 (amended): the band check lives in the AMS tick, not in the
`valid` flags: `handleStreaming` selects (and commands the motors with)
a solution exactly when its `valid` flag is set AND both of its
capacitance goals, cast to pF × 100, lie within the corresponding
motor's `[minCap, maxCap]` band, preferring solution 0. -/
theorem C1_goal_selection (m0 m1 : MotorController) (g : MatchingGoals)
    (t0 t1 : ℤ) :
    (amsSelectGoal m0 m1 g = some (0, t0, t1) ↔
      (g.valid0 = true ∧
       m0.minCap ≤ truncR (g.VVC0Goal0 * 100.0) ∧
       truncR (g.VVC0Goal0 * 100.0) ≤ m0.maxCap ∧
       m1.minCap ≤ truncR (g.VVC1Goal0 * 100.0) ∧
       truncR (g.VVC1Goal0 * 100.0) ≤ m1.maxCap ∧
       t0 = g.step0Goal0 ∧ t1 = g.step1Goal0)) ∧
    (amsSelectGoal m0 m1 g = some (1, t0, t1) ↔
      (¬ (g.valid0 = true ∧
          m0.minCap ≤ truncR (g.VVC0Goal0 * 100.0) ∧
          truncR (g.VVC0Goal0 * 100.0) ≤ m0.maxCap ∧
          m1.minCap ≤ truncR (g.VVC1Goal0 * 100.0) ∧
          truncR (g.VVC1Goal0 * 100.0) ≤ m1.maxCap) ∧
       g.valid1 = true ∧
       m0.minCap ≤ truncR (g.VVC0Goal1 * 100.0) ∧
       truncR (g.VVC0Goal1 * 100.0) ≤ m0.maxCap ∧
       m1.minCap ≤ truncR (g.VVC1Goal1 * 100.0) ∧
       truncR (g.VVC1Goal1 * 100.0) ≤ m1.maxCap ∧
       t0 = g.step0Goal1 ∧ t1 = g.step1Goal1)) ∧
    (amsSelectGoal m0 m1 g = none ↔
      (¬ (g.valid0 = true ∧
          m0.minCap ≤ truncR (g.VVC0Goal0 * 100.0) ∧
          truncR (g.VVC0Goal0 * 100.0) ≤ m0.maxCap ∧
          m1.minCap ≤ truncR (g.VVC1Goal0 * 100.0) ∧
          truncR (g.VVC1Goal0 * 100.0) ≤ m1.maxCap) ∧
       ¬ (g.valid1 = true ∧
          m0.minCap ≤ truncR (g.VVC0Goal1 * 100.0) ∧
          truncR (g.VVC0Goal1 * 100.0) ≤ m0.maxCap ∧
          m1.minCap ≤ truncR (g.VVC1Goal1 * 100.0) ∧
          truncR (g.VVC1Goal1 * 100.0) ≤ m1.maxCap))) := by
  simp only [amsSelectGoal]
  split_ifs with h0 h1 <;>
    simp_all <;> tauto

set_option maxHeartbeats 1000000 in
/-- C10: `calculateMatchingGoals` recomputes RC/XC (and XD) from the
output sensor only when `useOutputForRC` is true AND at least one of
`(Rpm, Xpm)` is nonzero.  When the output sensor reports exactly `(0, 0)`
the result is identical to the `useOutputForRC = false` call and the
used RC/XC are the input-derived `calculateImpedances` values — even
though the AMS requests the output path exactly when VSWR > 2
(`amsUseOutputForRC`).  When the pair is nonzero and the flag is set, the
used RC/XC are the `calculateZCFromOutput` values. -/
theorem C10_output_sensor_gating (a : MatchingAlgorithm) (Rm Xm VVC0_pF VVC1_pF : ℝ)
    (m0 m1 : Option MotorController) (g0 : MatchingGoals) :
    (∀ u : Bool, a.calculateMatchingGoals Rm Xm VVC0_pF VVC1_pF m0 m1 0 0 u g0
       = a.calculateMatchingGoals Rm Xm VVC0_pF VVC1_pF m0 m1 0 0 false g0) ∧
    ((a.calculateMatchingGoals Rm Xm VVC0_pF VVC1_pF m0 m1 0 0 true g0).RC_calculated
       = (a.calculateImpedances Rm Xm VVC0_pF VVC1_pF).RC ∧
     (a.calculateMatchingGoals Rm Xm VVC0_pF VVC1_pF m0 m1 0 0 true g0).XC_calculated
       = (a.calculateImpedances Rm Xm VVC0_pF VVC1_pF).XC) ∧
    (∀ Rpm Xpm : ℝ, (Rpm ≠ 0 ∨ Xpm ≠ 0) →
       (a.calculateMatchingGoals Rm Xm VVC0_pF VVC1_pF m0 m1 Rpm Xpm true g0).RC_calculated
         = (a.calculateZCFromOutput Rpm Xpm VVC1_pF).RC ∧
       (a.calculateMatchingGoals Rm Xm VVC0_pF VVC1_pF m0 m1 Rpm Xpm true g0).XC_calculated
         = (a.calculateZCFromOutput Rpm Xpm VVC1_pF).XC) ∧
    (∀ v : ℝ, amsUseOutputForRC v = true ↔ 2 < v) := by
  refine ⟨?_, ?_, ?_, ?_⟩
  · intro u
    cases u
    · rfl
    · simp only [MatchingAlgorithm.calculateMatchingGoals]
      norm_num
  · simp only [MatchingAlgorithm.calculateMatchingGoals]
    norm_num
    constructor
    · rw [apply_ite MatchingGoals.RC_calculated]
      simp
    · rw [apply_ite MatchingGoals.XC_calculated]
      simp
  · intro Rpm Xpm h
    have hc : (true = true ∧ (Rpm ≠ 0 ∨ Xpm ≠ 0)) := ⟨rfl, h⟩
    simp only [MatchingAlgorithm.calculateMatchingGoals, if_pos hc]
    constructor
    · rw [apply_ite MatchingGoals.RC_calculated]
      simp
      rw [if_pos h]
    · rw [apply_ite MatchingGoals.XC_calculated]
      simp
      rw [if_pos h]
  · intro v
    simp [amsUseOutputForRC]
    norm_num

/-- Witness for C10 with a nonzero output-sensor reading. -/
theorem C10_output_sensor_gating_witness :
    ((1 : ℝ) ≠ 0 ∨ (0 : ℝ) ≠ 0) ∧
    (algoStub.calculateMatchingGoals 2 0 1 1 (some bootMotor) (some bootMotor)
        1 0 true junkGoals).RC_calculated
      = (algoStub.calculateZCFromOutput 1 0 1).RC :=
  ⟨Or.inl one_ne_zero,
   ((C10_output_sensor_gating algoStub 2 0 1 1 (some bootMotor) (some bootMotor)
       junkGoals).2.2.1 1 0 (Or.inl one_ne_zero)).1⟩

/-- C2 (counterexample): the impedance-magnitude division of
`calculateAveragedImpedance` has no `1e-12` floor.  With a unit voltage
buffer and an all-zero current buffer (a possible buffer content), gains
1, and `avg_count = 1`, the divisor `avg_imagSq · g_i²` is exactly 0 and
the division is performed on it, producing a non-finite result in C
(embedded as `none`) — the claimed small-positive-floor substitution does
not happen (the floor exists only in `divideSafe`, which is used by the
per-bin `readImpedance` path, not here). -/
theorem C2_divide_by_zero_counterexample :
    calculateAveragedImpedance 1024 ⟨1, 1, 0⟩ (fun _ => 1) (fun _ => 0)
      (fun _ => 0) (fun _ => 0) true 0 0 512 1 = none := by
  simp only [calculateAveragedImpedance, avgCountUsed, sumImagSq]
  norm_num

/-- C2 (amended): `calculateAveragedImpedance` clamps every `avg_count`
into `[1, N]` — 0 behaves like 1 and `N + 1` like `N` — and a hold
failure returns the all-zero (finite) result; but the six outputs are
guaranteed well-defined (finite, non-NaN) only when the averaged current
magnitude squared times `currentGain²` is nonzero, because the
impedance-magnitude division is unguarded. -/
theorem C2_amended_safety (fftLength : ℕ) (cal : SensorCalibration)
    (v_re v_im i_re i_im : ℕ → ℝ) (hv hi : ℕ) (acM : ℤ) :
    (∀ ac : ℤ, calculateAveragedImpedance fftLength cal v_re v_im i_re i_im
        false hv hi acM ac = some ⟨0, 0, 0, 0, 0, 0⟩) ∧
    (calculateAveragedImpedance fftLength cal v_re v_im i_re i_im true hv hi acM 0
      = calculateAveragedImpedance fftLength cal v_re v_im i_re i_im true hv hi acM 1) ∧
    (calculateAveragedImpedance fftLength cal v_re v_im i_re i_im true hv hi acM
        ((fftLength : ℤ) + 1)
      = calculateAveragedImpedance fftLength cal v_re v_im i_re i_im true hv hi acM
        (fftLength : ℤ)) ∧
    (∀ ac : ℤ, cal.currentGain ≠ 0 →
      sumImagSq fftLength i_re i_im hi (avgCountUsed fftLength acM ac) ≠ 0 →
      (calculateAveragedImpedance fftLength cal v_re v_im i_re i_im
        true hv hi acM ac).isSome = true) := by
  refine ⟨fun ac => rfl, ?_, ?_, ?_⟩
  · have h : avgCountUsed fftLength acM 0 = avgCountUsed fftLength acM 1 := by
      simp [avgCountUsed]
    simp only [calculateAveragedImpedance, h]
  · have h : avgCountUsed fftLength acM ((fftLength : ℤ) + 1)
        = avgCountUsed fftLength acM (fftLength : ℤ) := by
      simp only [avgCountUsed]
      split_ifs <;> first | contradiction | omega
    simp only [calculateAveragedImpedance, h]
  · intro ac hg hsum
    have hk : avgCountUsed fftLength acM ac ≠ 0 := by
      intro h0
      apply hsum
      rw [h0]
      simp [sumImagSq]
    have hkr : ((avgCountUsed fftLength acM ac : ℕ) : ℝ) ≠ 0 := by
      exact_mod_cast hk
    have hdiv : sumImagSq fftLength i_re i_im hi (avgCountUsed fftLength acM ac) *
        (1 / ((avgCountUsed fftLength acM ac : ℕ) : ℝ)) *
        cal.currentGain * cal.currentGain ≠ 0 :=
      mul_ne_zero (mul_ne_zero (mul_ne_zero hsum (one_div_ne_zero hkr)) hg) hg
    simp only [calculateAveragedImpedance]
    rw [if_neg (by simp)]
    rw [if_neg hdiv]
    simp

/-- Witness for C2 (amended): a unit current buffer gives a nonzero
divisor and a well-defined result. -/
theorem C2_amended_safety_witness :
    (1 : ℝ) ≠ 0 ∧
    sumImagSq 4 (fun _ => 1) (fun _ => 0) 0 (avgCountUsed 4 512 1) ≠ 0 ∧
    (calculateAveragedImpedance 4 ⟨1, 1, 0⟩ (fun _ => 1) (fun _ => 0)
      (fun _ => 1) (fun _ => 0) true 0 0 512 1).isSome = true :=
  ⟨one_ne_zero, by norm_num [sumImagSq, avgCountUsed],
   (C2_amended_safety 4 ⟨1, 1, 0⟩ (fun _ => 1) (fun _ => 0) (fun _ => 1) (fun _ => 0)
      0 0 512).2.2.2 1 one_ne_zero (by norm_num [sumImagSq, avgCountUsed])⟩

/-- One AMS tick preserves the invariant `matching → enabled`: the only
transition that sets `matching` (the restart branch) runs under the
`enabled` guard, and the timeout transition clears both flags. -/
theorem amsTick_preserves_inv (env : AmsEnv) (s : AmsState) (inp : AmsTickInput)
    (h : s.matching = true → s.enabled = true) (hv : s.verbose = true) :
    ((amsTick env s inp).1.matching = true → (amsTick env s inp).1.enabled = true) ∧
    (amsTick env s inp).1.verbose = true := by
  simp only [amsTick]
  by_cases hc : s.enabled = true ∧ env.present = true
  · rw [if_neg (not_not_intro hc)]
    split_ifs with h1 h2 h3 h4 h5 h6 h7 h8 h9 h10 h11 <;> try split
    all_goals refine ⟨?_, hv⟩
    all_goals try exact fun _ => hc.1
    all_goals intro hm
    all_goals first | exact Bool.noConfusion hm | exact hm
  · rw [if_pos hc]
    exact ⟨h, hv⟩

/-- C7: (1) in every reachable AMS state, `mode = Matching` implies
`enabled = true`; (2) on any tick of an enabled AMS where `timeout > 0`
and the elapsed time since start has reached the (unsigned-cast) timeout,
the tick disables the AMS, leaves Matching mode, emits exactly the
`AMS,TIMEOUT` frame followed by the `ACK,ams,TIMEOUT` frame, performs no
sampling or logging, and issues no motor command.  (`verbose` is `true`
in every reachable state — the constructor and `ams start` both set it —
so the TIMEOUT frame is never suppressed.) -/
theorem C7_matching_enabled_timeout (env : AmsEnv) :
    (∀ s : AmsState, AmsReachable env s →
      ((s.matching = true → s.enabled = true) ∧ s.verbose = true)) ∧
    (∀ (s : AmsState) (inp : AmsTickInput),
      s.enabled = true → env.present = true → s.verbose = true →
      0 < s.timeout → u64 s.timeout ≤ inp.now - s.startTime →
      amsTick env s inp =
        ({ s with enabled := false, matching := false, debugCounter := 0 },
         [Frame.timeoutF (inp.now - s.startTime), Frame.ackF "ams" "TIMEOUT"], [])) := by
  constructor
  · intro s hs
    induction hs with
    | init => exact ⟨fun hm => by simp [amsInit] at hm, rfl⟩
    | stop _ ih => exact ⟨fun hm => by simp [amsCmdStop] at hm, ih.2⟩
    | start a1 a2 a3 now _ ih =>
        simp only [amsCmdStart]
        split_ifs with hp
        · exact ih
        · exact ⟨fun _ => rfl, rfl⟩
    | tick inp _ ih => exact amsTick_preserves_inv env _ inp ih.1 ih.2
  · intro s inp he hp hv ht helapsed
    simp only [amsTick]
    rw [if_neg (not_not_intro ⟨he, hp⟩), if_pos ⟨ht, helapsed⟩, if_pos hv]
    rfl

/-- Witness for C7: the initial state is reachable and satisfies the
invariant, and a concrete enabled state at `now = 5000` with a 5000 ms
timeout takes exactly the timeout transition. -/
theorem C7_witness :
    AmsReachable envStub amsInit ∧
    ((amsInit.matching = true → amsInit.enabled = true) ∧ amsInit.verbose = true) ∧
    c7state.enabled = true ∧ envStub.present = true ∧ c7state.verbose = true ∧
    0 < c7state.timeout ∧ u64 c7state.timeout ≤ c7input.now - c7state.startTime ∧
    amsTick envStub c7state c7input =
      ({ c7state with enabled := false, matching := false, debugCounter := 0 },
       [Frame.timeoutF (c7input.now - c7state.startTime), Frame.ackF "ams" "TIMEOUT"], []) :=
  ⟨AmsReachable.init,
   (C7_matching_enabled_timeout envStub).1 amsInit AmsReachable.init,
   rfl, rfl, rfl, by decide, by decide,
   (C7_matching_enabled_timeout envStub).2 c7state c7input rfl rfl rfl
     (by decide) (by decide)⟩
